import Mathlib

/-!
# RickBot 2.0 observability subsystem — shallow embedding

This file embeds the observability tracker of the RickBot repository
(`core/observability.py`) together with its command-dispatch hook
(`core/bot.py`, `RickBot._setup_command_tracking`) and the document models
(`core/models.py`), and proves the specification claims about them.

Modelling conventions:
* Python strings used as reference codes are `List Char`; map keys are `String`.
* `float` durations are `ℚ` (the scenario values are exact in both).
* MongoDB collections are lists of documents; an insert that succeeds appends,
  an insert that raises is caught by the source and leaves the list unchanged.
* Nondeterministic inputs of the source (`random.choices`, the collision
  probe's database answer, the wall clock, whether an insert raises) are
  explicit parameters.
-/

namespace RickBot

/-- Embedding of `ObservabilityConfig` from `core/config.py` (defaults as in the source). -/
structure ObservabilityConfig where
  track_command_execution : Bool := true
  track_command_timing : Bool := true
  track_command_args : Bool := true
  track_errors : Bool := true
  error_reference_length : Nat := 6
  store_error_traceback : Bool := true
  aggregate_metrics_interval : Nat := 300

/-- The default configuration values of `ObservabilityConfig`. -/
def defaultObservabilityConfig : ObservabilityConfig := {}

/-- The relevant fields of a `discord.app_commands` command object. -/
structure CommandInfo where
  qualified_name : String
  isContextMenu : Bool
  isUserMenu : Bool

/-- The relevant fields of `interaction.user`. -/
structure UserInfo where
  id : Int
  name : String

/-- The relevant fields of `interaction.guild`. -/
structure GuildInfo where
  id : Int
  name : String

/-- The relevant fields of `interaction.channel` (`name` is absent on
channel objects without a `name` attribute). -/
structure ChannelInfo where
  id : Int
  name : Option String

/-- The relevant fields of a `discord.Interaction`: the resolved command (if
any), the invoking user, optional guild/channel, and the `namespace.__dict__`
items as printable values. -/
structure Interaction where
  user : UserInfo
  guild : Option GuildInfo
  channel : Option ChannelInfo
  command : Option CommandInfo
  namespaceArgs : List (String × String)

/-- Model of the `CommandLog` document from `core/models.py` (fields the tracker writes). -/
structure CommandLogDoc where
  command_name : String
  command_type : String
  execution_time_ms : ℚ
  success : Bool
  user_id : Int
  user_name : String
  guild_id : Option Int
  guild_name : Option String
  channel_id : Option Int
  channel_name : Option String
  arguments : Option (List (String × String))
  error_reference : Option (List Char)
deriving DecidableEq

/-- Model of the `ErrorLog` document from `core/models.py` (fields the tracker writes;
`resolved` defaults to `false`). -/
structure ErrorLogDoc where
  error_reference : List Char
  error_type : String
  error_message : String
  traceback : Option String
  command_name : Option String
  guild_id : Option Int
  channel_id : Option Int
  user_id : Option Int
  interaction_data : Option (List (String × String))
  resolved : Bool := false
deriving DecidableEq

/-- Model of the `MetricSnapshot` document from `core/models.py` (fields the tracker writes). -/
structure MetricSnapshotDoc where
  guild_count : Int
  user_count : Int
  uptime_seconds : ℚ
  total_commands_executed : Nat
  commands_by_name : List (String × Nat)
  average_command_time_ms : List (String × ℚ)
  total_errors : Nat
  errors_by_type : List (String × Nat)
  memory_usage_mb : Option ℚ
deriving DecidableEq

/-- The three MongoDB collections the tracker writes to. -/
structure DB where
  command_logs : List CommandLogDoc
  error_logs : List ErrorLogDoc
  metrics : List MetricSnapshotDoc
deriving DecidableEq

/-- An empty database. -/
def emptyDB : DB := ⟨[], [], []⟩

/-- The tracker's in-memory maps (`_command_counts`, `_command_timings`,
`_error_counts`), as insertion-ordered association lists, matching Python
dict semantics for the operations the source performs. -/
structure TrackerState where
  command_counts : List (String × Nat)
  command_timings : List (String × List ℚ)
  error_counts : List (String × Nat)
deriving DecidableEq

/-- The tracker's initial state: all three dicts empty. -/
def emptyState : TrackerState := ⟨[], [], []⟩

/-- First-match association-list lookup (Python dict `m[k]` / `k in m`). -/
def lookupKey {β : Type} (k : String) : List (String × β) → Option β
  | [] => none
  | (k', v) :: rest => if k = k' then some v else lookupKey k rest

/-- Python `m[k] = m.get(k, 0) + 1` on an insertion-ordered dict: update in place,
or append a fresh key at the end. -/
def bump : List (String × Nat) → String → List (String × Nat)
  | [], k => [(k, 1)]
  | (k', v) :: rest, k => if k = k' then (k', v + 1) :: rest else (k', v) :: bump rest k

/-- Python `if k not in m: m[k] = []` followed by `m[k].append(t)` on an
insertion-ordered dict. -/
def pushTiming : List (String × List ℚ) → String → ℚ → List (String × List ℚ)
  | [], k, t => [(k, [t])]
  | (k', l) :: rest, k, t =>
      if k = k' then (k', l ++ [t]) :: rest else (k', l) :: pushTiming rest k t

/-- Count looked up with default 0 (`m.get(k, 0)`). -/
def getCount (m : List (String × Nat)) (k : String) : Nat :=
  (lookupKey k m).getD 0

/-- Timing list looked up with default `[]`. -/
def getTimings (st : TrackerState) (k : String) : List ℚ :=
  (lookupKey k st.command_timings).getD []

/-- Python `sum(m.values())`. -/
def sumCounts (m : List (String × Nat)) : Nat :=
  (m.map Prod.snd).sum

/-! ## Error-reference generation (`generate_error_reference`) -/

/-- The alphabet `chars = string.ascii_uppercase + string.digits`: 36 characters. -/
def refAlphabet : List Char :=
  ['A','B','C','D','E','F','G','H','I','J','K','L','M','N','O','P','Q','R',
   'S','T','U','V','W','X','Y','Z','0','1','2','3','4','5','6','7','8','9']

/-- Whether a character belongs to `refAlphabet` (`[A-Z0-9]`). -/
def isRefChar (c : Char) : Bool := refAlphabet.contains c

/-- Whether a character is a decimal digit. -/
def isDigitChar (c : Char) : Bool := decide ('0' ≤ c) && decide (c ≤ '9')

/-- Python `"".join(random.choices(chars, k=n))`: `n` independent picks from the
36-character alphabet, the picks themselves being the nondeterministic
input `f`. -/
def randomChoices (n : Nat) (f : Nat → Fin 36) : List Char :=
  (List.range n).map (fun j => refAlphabet.getD (f j).val 'A')

/-- The characters of Python's `str(n)` for a natural number. -/
def decimalRepr (n : Nat) : List Char :=
  if n = 0 then ['0']
  else ((Nat.digits 10 n).map (fun d => Char.ofNat (48 + d))).reverse

/-- Python `str(int(datetime.now(timezone.utc).timestamp()))[-3:]`: the last (at
most) three characters of the decimal timestamp. -/
def tsSuffix (ts : Nat) : List Char :=
  (decimalRepr ts).drop ((decimalRepr ts).length - 3)

/-- The literal `"ERR-"`. -/
def errTag : List Char := ['E', 'R', 'R', '-']

/-- Outcome of one `find_one({"error_reference": ...})` probe: no existing
document, an existing document (collision), or the call raising. -/
inductive ProbeResult where
  | notFound
  | found
  | dbError
deriving DecidableEq

/-- Nondeterministic environment of `generate_error_reference`: the random
picks of each attempt (attempt 3 is the forced-disambiguation draw), the
database's answer to each probe, and the UTC timestamp in seconds. -/
structure GenEnv where
  picks : Nat → Nat → Fin 36
  probe : Nat → ProbeResult
  ts : Nat

/-- Embedding of `generate_error_reference` from `core/observability.py`, with the
`for attempt in range(max_attempts)` loop (`max_attempts = 3`) unrolled.
Each attempt draws a fresh code and probes the store: `not existing`
returns the code, a raised probe returns the code anyway, a collision
moves to the next attempt; after three collisions a fresh code gets the
timestamp suffix appended. The second component counts `find_one` calls. -/
def generate_error_reference (cfg : ObservabilityConfig) (env : GenEnv) :
    List Char × Nat :=
  let code0 := errTag ++ randomChoices cfg.error_reference_length (env.picks 0)
  match env.probe 0 with
  | ProbeResult.notFound => (code0, 1)
  | ProbeResult.dbError => (code0, 1)
  | ProbeResult.found =>
    let code1 := errTag ++ randomChoices cfg.error_reference_length (env.picks 1)
    match env.probe 1 with
    | ProbeResult.notFound => (code1, 2)
    | ProbeResult.dbError => (code1, 2)
    | ProbeResult.found =>
      let code2 := errTag ++ randomChoices cfg.error_reference_length (env.picks 2)
      match env.probe 2 with
      | ProbeResult.notFound => (code2, 3)
      | ProbeResult.dbError => (code2, 3)
      | ProbeResult.found =>
        (errTag ++ randomChoices cfg.error_reference_length (env.picks 3)
           ++ tsSuffix env.ts, 3)

/-- A clean reference: `ERR-` followed by exactly `n` alphabet characters. -/
def matchesCleanRef (n : Nat) (r : List Char) : Bool :=
  decide (r.take 4 = errTag) && decide ((r.drop 4).length = n)
    && (r.drop 4).all isRefChar

/-- A well-formed reference: `ERR-` followed by `n` to `n + 3` characters
from `[A-Z0-9]` (the timestamp suffix adds at most three digits). -/
def wellFormedRef (n : Nat) (r : List Char) : Bool :=
  decide (r.take 4 = errTag) && decide (n ≤ (r.drop 4).length)
    && decide ((r.drop 4).length ≤ n + 3) && (r.drop 4).all isRefChar

/-! ## Tracker operations -/

/-- Command-type discrimination at the top of `log_command_execution`. -/
def commandTypeOf (cmd : CommandInfo) : String :=
  if cmd.isContextMenu then
    if cmd.isUserMenu then "context_menu_user" else "context_menu_message"
  else "slash"

/-- The `CommandLog` document built inside `log_command_execution`
(`arguments` is nulled there unless `track_command_args` is on). -/
def buildCommandLog (cfg : ObservabilityConfig) (cmd : CommandInfo)
    (inter : Interaction) (execution_time_ms : ℚ) (success : Bool)
    (error_reference : Option (List Char))
    (arguments : Option (List (String × String))) : CommandLogDoc :=
  { command_name := cmd.qualified_name,
    command_type := commandTypeOf cmd,
    execution_time_ms := execution_time_ms,
    success := success,
    user_id := inter.user.id,
    user_name := inter.user.name,
    guild_id := inter.guild.map GuildInfo.id,
    guild_name := inter.guild.map GuildInfo.name,
    channel_id := inter.channel.map ChannelInfo.id,
    channel_name := inter.channel.bind ChannelInfo.name,
    arguments := if cfg.track_command_args then arguments else none,
    error_reference := error_reference }

/-- Embedding of `log_command_execution` from `core/observability.py`: no-op when
`track_command_execution` is off; otherwise builds a `CommandLog` document,
attempts the insert (a raised insert — `insertOk = false` — is caught and
only logged), then unconditionally bumps the invocation counter and, when
`track_command_timing` is on, appends the duration. -/
def log_command_execution (cfg : ObservabilityConfig) (cmd : CommandInfo)
    (inter : Interaction) (execution_time_ms : ℚ) (success : Bool)
    (error_reference : Option (List Char))
    (arguments : Option (List (String × String))) (insertOk : Bool)
    (st : TrackerState) (db : DB) : TrackerState × DB :=
  if cfg.track_command_execution = false then (st, db)
  else
    let log := buildCommandLog cfg cmd inter execution_time_ms success
      error_reference arguments
    let db' := if insertOk then { db with command_logs := db.command_logs ++ [log] } else db
    let counts' := bump st.command_counts cmd.qualified_name
    let timings' :=
      if cfg.track_command_timing then
        pushTiming st.command_timings cmd.qualified_name execution_time_ms
      else st.command_timings
    ({ st with command_counts := counts', command_timings := timings' }, db')

/-- The exception object: its type name, message, and formatted traceback. -/
structure ExceptionInfo where
  type_name : String
  message : String
  traceback : String
deriving DecidableEq

/-- The `ErrorLog` document built inside `log_error` for a given generated
reference (`traceback` is nulled unless `store_error_traceback` is on). -/
def buildErrorLog (cfg : ObservabilityConfig) (error_ref : List Char)
    (error : ExceptionInfo) (interaction : Option Interaction)
    (command_name : Option String)
    (additional_context : Option (List (String × String))) : ErrorLogDoc :=
  { error_reference := error_ref,
    error_type := error.type_name,
    error_message := error.message,
    traceback := if cfg.store_error_traceback then some error.traceback else none,
    command_name := command_name,
    guild_id := interaction.bind (fun i => i.guild.map GuildInfo.id),
    channel_id := interaction.bind (fun i => i.channel.map ChannelInfo.id),
    user_id := interaction.map (fun i => i.user.id),
    interaction_data := additional_context }

/-- Embedding of `log_error` from `core/observability.py`: always generates a reference
first; when `track_errors` is off it returns the reference without storing
or counting; otherwise it builds an `ErrorLog` document, attempts the
insert (a raised insert is caught and only logged), bumps the per-type
error counter, and returns the reference. -/
def log_error (cfg : ObservabilityConfig) (env : GenEnv) (error : ExceptionInfo)
    (interaction : Option Interaction) (command_name : Option String)
    (additional_context : Option (List (String × String))) (insertOk : Bool)
    (st : TrackerState) (db : DB) : List Char × TrackerState × DB :=
  let error_ref := (generate_error_reference cfg env).1
  if cfg.track_errors = false then (error_ref, st, db)
  else
    let error_log := buildErrorLog cfg error_ref error interaction command_name
      additional_context
    let db' := if insertOk then { db with error_logs := db.error_logs ++ [error_log] } else db
    let st' := { st with error_counts := bump st.error_counts error.type_name }
    (error_ref, st', db')

/-- The `avg_timings` computation at the top of `create_metric_snapshot`:
`if timings: avg_timings[cmd] = sum(timings) / len(timings)`. -/
def averageTimings : List (String × List ℚ) → List (String × ℚ)
  | [] => []
  | (cmd, timings) :: rest =>
      if timings = [] then averageTimings rest
      else (cmd, timings.sum / (timings.length : ℚ)) :: averageTimings rest

/-- The `MetricSnapshot` value built inside `create_metric_snapshot` from
the current in-memory maps. -/
def build_snapshot (st : TrackerState) (guild_count user_count : Int)
    (uptime_seconds : ℚ) (memory_mb : Option ℚ) : MetricSnapshotDoc :=
  { guild_count := guild_count,
    user_count := user_count,
    uptime_seconds := uptime_seconds,
    total_commands_executed := sumCounts st.command_counts,
    commands_by_name := st.command_counts,
    average_command_time_ms := averageTimings st.command_timings,
    total_errors := sumCounts st.error_counts,
    errors_by_type := st.error_counts,
    memory_usage_mb := memory_mb }

/-- Truncation applied by `cleanup_memory` to one duration list:
`timings[-100:]` when `len(timings) > 100`, untouched otherwise. -/
def trimTimings (l : List ℚ) : List ℚ :=
  if 100 < l.length then l.drop (l.length - 100) else l

/-- Embedding of `cleanup_memory` from `core/observability.py`: truncates every
over-long per-command duration list to its most recent 100 entries and
leaves the two counter maps alone. -/
def cleanup_memory (st : TrackerState) : TrackerState :=
  { st with command_timings := st.command_timings.map (fun p => (p.1, trimTimings p.2)) }

/-- Embedding of `create_metric_snapshot` from `core/observability.py`: builds the
snapshot from the in-memory maps and attempts the insert; on success
(`insertOk = true`) it then calls `cleanup_memory`; a raised insert is
caught, leaving state and store unchanged. -/
def create_metric_snapshot (guild_count user_count : Int) (uptime_seconds : ℚ)
    (memory_mb : Option ℚ) (insertOk : Bool) (st : TrackerState) (db : DB) :
    TrackerState × DB :=
  let snapshot := build_snapshot st guild_count user_count uptime_seconds memory_mb
  if insertOk then
    (cleanup_memory st, { db with metrics := db.metrics ++ [snapshot] })
  else (st, db)

/-- Embedding of `reset_metrics` from `core/observability.py`: clears all three maps. -/
def reset_metrics (_st : TrackerState) : TrackerState := ⟨[], [], []⟩

/-! ## The dispatch hook (`RickBot._setup_command_tracking`) -/

/-- What the original `tree._call` does on this invocation: return
normally or raise. -/
inductive HandlerOutcome where
  | ok
  | raises (error : ExceptionInfo)

/-- Nondeterministic environment of one `tracked_call` invocation: the
reference-generation inputs, whether each of the two inserts raises, and
the measured wall-clock duration in milliseconds. -/
structure CallEnv where
  gen : GenEnv
  errorInsertOk : Bool
  commandInsertOk : Bool
  execution_time_ms : ℚ

/-- Embedding of `tracked_call` from `core/bot.py`: runs the original dispatch; on an
exception it calls `log_error` (recording the reference and marking the
invocation failed) and swallows the exception; in the `finally` block,
when the interaction resolved to a command, it extracts arguments (only
when `track_command_args` is on, dropping underscore-named namespace
attributes) and calls `log_command_execution`. Showing the error embed to
the user and the slow-command warning do not touch tracker state or the
store. -/
def tracked_call (cfg : ObservabilityConfig) (env : CallEnv) (inter : Interaction)
    (outcome : HandlerOutcome) (st : TrackerState) (db : DB) : TrackerState × DB :=
  let afterTry : Bool × Option (List Char) × TrackerState × DB :=
    match outcome with
    | HandlerOutcome.ok => (true, none, st, db)
    | HandlerOutcome.raises e =>
        let r := log_error cfg env.gen e (some inter)
          (inter.command.map CommandInfo.qualified_name) none env.errorInsertOk st db
        (false, some r.1, r.2.1, r.2.2)
  match afterTry with
  | (success, error_ref, st1, db1) =>
    match inter.command with
    | none => (st1, db1)
    | some cmd =>
        let arguments :=
          if cfg.track_command_args then
            some (inter.namespaceArgs.filter (fun p => !(p.1.startsWith "_")))
          else none
        log_command_execution cfg cmd inter env.execution_time_ms success
          error_ref arguments env.commandInsertOk st1 db1

/-! ## Operation sequences (for snapshot-to-snapshot invariants) -/

/-- One call to a tracker entry point, with all of its inputs. -/
inductive TrackerOp where
  | logCommand (cmd : CommandInfo) (inter : Interaction) (t : ℚ) (success : Bool)
      (ref : Option (List Char)) (args : Option (List (String × String)))
      (insertOk : Bool)
  | logError (env : GenEnv) (error : ExceptionInfo) (inter : Option Interaction)
      (cmdName : Option String) (ctx : Option (List (String × String)))
      (insertOk : Bool)
  | trackedCall (env : CallEnv) (inter : Interaction) (outcome : HandlerOutcome)
  | snapshot (g u : Int) (up : ℚ) (mem : Option ℚ) (insertOk : Bool)
  | cleanup
  | reset

/-- Apply one tracker operation to the in-memory state and the store. -/
def applyOp (cfg : ObservabilityConfig) : TrackerOp → TrackerState × DB → TrackerState × DB
  | TrackerOp.logCommand cmd inter t s ref args ok, (st, db) =>
      log_command_execution cfg cmd inter t s ref args ok st db
  | TrackerOp.logError env e inter cn ctx ok, (st, db) =>
      (log_error cfg env e inter cn ctx ok st db).2
  | TrackerOp.trackedCall env inter outcome, (st, db) =>
      tracked_call cfg env inter outcome st db
  | TrackerOp.snapshot g u up mem ok, (st, db) =>
      create_metric_snapshot g u up mem ok st db
  | TrackerOp.cleanup, (st, db) => (cleanup_memory st, db)
  | TrackerOp.reset, (st, db) => (reset_metrics st, db)

/-- Apply a sequence of tracker operations left to right. -/
def applyOps (cfg : ObservabilityConfig) (ops : List TrackerOp)
    (s : TrackerState × DB) : TrackerState × DB :=
  ops.foldl (fun s op => applyOp cfg op s) s

/-- The cumulative counter fields of one snapshot are dominated by those of
a later one: totals and every per-key entry are no smaller. -/
def countersLE (s1 s2 : MetricSnapshotDoc) : Prop :=
  s1.total_commands_executed ≤ s2.total_commands_executed ∧
  s1.total_errors ≤ s2.total_errors ∧
  (∀ k, getCount s1.commands_by_name k ≤ getCount s2.commands_by_name k) ∧
  (∀ k, getCount s1.errors_by_type k ≤ getCount s2.errors_by_type k)

/-! ## Helper lemmas: reference format -/

lemma randomChoices_length (n : Nat) (f : Nat → Fin 36) :
    (randomChoices n f).length = n := by
  simp [randomChoices]

lemma isRefChar_alphabet_getD : ∀ j : Fin 36, isRefChar (refAlphabet.getD j.val 'A') = true := by
  decide

lemma randomChoices_all_ref (n : Nat) (f : Nat → Fin 36) :
    (randomChoices n f).all isRefChar = true := by
  rw [List.all_eq_true]
  intro c hc
  rw [randomChoices, List.mem_map] at hc
  obtain ⟨j, _, rfl⟩ := hc
  exact isRefChar_alphabet_getD (f j)

lemma digit_char_ref : ∀ d : Fin 10,
    isRefChar (Char.ofNat (48 + d.val)) = true ∧
    isDigitChar (Char.ofNat (48 + d.val)) = true := by
  decide

lemma decimalRepr_mem {ts : Nat} {c : Char} (hc : c ∈ decimalRepr ts) :
    isRefChar c = true ∧ isDigitChar c = true := by
  rw [decimalRepr] at hc
  split at hc
  · simp at hc
    subst hc
    exact digit_char_ref ⟨0, by norm_num⟩
  · rw [List.mem_reverse, List.mem_map] at hc
    obtain ⟨d, hd, rfl⟩ := hc
    have hlt : d < 10 := Nat.digits_lt_base (by norm_num) hd
    exact digit_char_ref ⟨d, hlt⟩

lemma tsSuffix_all_ref (ts : Nat) : (tsSuffix ts).all isRefChar = true := by
  rw [List.all_eq_true]
  intro c hc
  exact (decimalRepr_mem (List.mem_of_mem_drop hc)).1

lemma tsSuffix_all_digit (ts : Nat) : (tsSuffix ts).all isDigitChar = true := by
  rw [List.all_eq_true]
  intro c hc
  exact (decimalRepr_mem (List.mem_of_mem_drop hc)).2

lemma tsSuffix_length_le (ts : Nat) : (tsSuffix ts).length ≤ 3 := by
  rw [tsSuffix, List.length_drop]
  omega

lemma decimalRepr_length_of_ge (ts : Nat) (h : 100 ≤ ts) :
    3 ≤ (decimalRepr ts).length := by
  rw [decimalRepr]
  have hne : ts ≠ 0 := by omega
  simp only [hne, if_false, List.length_reverse, List.length_map]
  have hlen := Nat.digits_len 10 ts (by norm_num) hne
  have hpow : (10 : ℕ) ^ 2 ≤ ts := by omega
  have hlog : 2 ≤ Nat.log 10 ts := (Nat.pow_le_iff_le_log (by norm_num) hne).mp hpow
  omega

lemma tsSuffix_length_eq (ts : Nat) (h : 100 ≤ ts) : (tsSuffix ts).length = 3 := by
  have := decimalRepr_length_of_ge ts h
  rw [tsSuffix, List.length_drop]
  omega

lemma take_errTag (l : List Char) : (errTag ++ l).take 4 = errTag :=
  List.take_left' rfl

lemma drop_errTag (l : List Char) : (errTag ++ l).drop 4 = l :=
  List.drop_left' rfl

lemma matchesCleanRef_of_choices (n : Nat) (f : Nat → Fin 36) :
    matchesCleanRef n (errTag ++ randomChoices n f) = true := by
  rw [matchesCleanRef, take_errTag, drop_errTag]
  simp [randomChoices_length, randomChoices_all_ref]

lemma wellFormedRef_of_clean {n : Nat} {r : List Char}
    (h : matchesCleanRef n r = true) : wellFormedRef n r = true := by
  rw [matchesCleanRef] at h
  rw [wellFormedRef]
  simp only [Bool.and_eq_true, decide_eq_true_eq] at h ⊢
  exact ⟨⟨⟨h.1.1, by omega⟩, by omega⟩, h.2⟩

lemma wellFormedRef_of_suffixed (n : Nat) (f : Nat → Fin 36) (ts : Nat) :
    wellFormedRef n (errTag ++ randomChoices n f ++ tsSuffix ts) = true := by
  rw [wellFormedRef, List.append_assoc, take_errTag, drop_errTag]
  have h1 := randomChoices_length n f
  have h2 := tsSuffix_length_le ts
  simp only [Bool.and_eq_true, decide_eq_true_eq, List.length_append,
    List.all_append]
  refine ⟨⟨⟨by trivial, by omega⟩, by omega⟩, randomChoices_all_ref n f, tsSuffix_all_ref ts⟩

/-! ## Helper lemmas: the in-memory maps -/

lemma lookupKey_bump_self (m : List (String × Nat)) (k : String) :
    lookupKey k (bump m k) = some (getCount m k + 1) := by
  induction m with
  | nil => simp [bump, lookupKey, getCount]
  | cons p rest ih =>
    obtain ⟨k', v⟩ := p
    by_cases h : k = k'
    · subst h
      simp [bump, lookupKey, getCount]
    · simp [bump, lookupKey, getCount, h, ih]

lemma lookupKey_bump_ne (m : List (String × Nat)) {k k' : String} (h : k' ≠ k) :
    lookupKey k' (bump m k) = lookupKey k' m := by
  induction m with
  | nil => simp [bump, lookupKey, h]
  | cons p rest ih =>
    obtain ⟨k'', v⟩ := p
    by_cases h2 : k = k''
    · subst h2
      simp [bump, lookupKey, h]
    · simp only [bump, if_neg h2]
      by_cases h3 : k' = k''
      · simp [lookupKey, h3]
      · simp [lookupKey, h3, ih]

lemma getCount_bump_self (m : List (String × Nat)) (k : String) :
    getCount (bump m k) k = getCount m k + 1 := by
  rw [getCount, lookupKey_bump_self]
  rfl

lemma getCount_bump_le (m : List (String × Nat)) (k k' : String) :
    getCount m k' ≤ getCount (bump m k) k' := by
  by_cases h : k' = k
  · subst h
    rw [getCount_bump_self]
    omega
  · rw [getCount, getCount, lookupKey_bump_ne m h]

lemma sumCounts_bump (m : List (String × Nat)) (k : String) :
    sumCounts (bump m k) = sumCounts m + 1 := by
  induction m with
  | nil => simp [bump, sumCounts]
  | cons p rest ih =>
    obtain ⟨k', v⟩ := p
    by_cases h : k = k'
    · subst h
      simp [bump, sumCounts]
      omega
    · simp only [bump, if_neg h]
      simp [sumCounts] at ih ⊢
      omega

lemma lookupKey_pushTiming_self (m : List (String × List ℚ)) (k : String) (t : ℚ) :
    lookupKey k (pushTiming m k t) = some ((lookupKey k m).getD [] ++ [t]) := by
  induction m with
  | nil => simp [pushTiming, lookupKey]
  | cons p rest ih =>
    obtain ⟨k', l⟩ := p
    by_cases h : k = k'
    · subst h
      simp [pushTiming, lookupKey]
    · simp [pushTiming, lookupKey, h, ih]

lemma lookupKey_mapSnd {β γ : Type} (f : β → γ) (m : List (String × β)) (k : String) :
    lookupKey k (m.map (fun p => (p.1, f p.2))) = (lookupKey k m).map f := by
  induction m with
  | nil => simp [lookupKey]
  | cons p rest ih =>
    obtain ⟨k', v⟩ := p
    by_cases h : k = k'
    · subst h
      simp [lookupKey]
    · simp [lookupKey, h, ih]

lemma trimTimings_length_le (l : List ℚ) : (trimTimings l).length ≤ 100 := by
  rw [trimTimings]
  split
  · rw [List.length_drop]
    omega
  · omega

/-! ## Helper lemmas: operation unfoldings and counter monotonicity -/

lemma log_command_execution_off (cfg : ObservabilityConfig) (cmd : CommandInfo)
    (inter : Interaction) (t : ℚ) (s : Bool) (ref : Option (List Char))
    (args : Option (List (String × String))) (ok : Bool) (st : TrackerState)
    (db : DB) (h : cfg.track_command_execution = false) :
    log_command_execution cfg cmd inter t s ref args ok st db = (st, db) := by
  simp [log_command_execution, h]

lemma log_command_execution_on (cfg : ObservabilityConfig) (cmd : CommandInfo)
    (inter : Interaction) (t : ℚ) (s : Bool) (ref : Option (List Char))
    (args : Option (List (String × String))) (ok : Bool) (st : TrackerState)
    (db : DB) (h : cfg.track_command_execution = true) :
    log_command_execution cfg cmd inter t s ref args ok st db =
      ({ st with
          command_counts := bump st.command_counts cmd.qualified_name,
          command_timings :=
            if cfg.track_command_timing then
              pushTiming st.command_timings cmd.qualified_name t
            else st.command_timings },
       if ok then
         { db with command_logs :=
             db.command_logs ++ [buildCommandLog cfg cmd inter t s ref args] }
       else db) := by
  simp [log_command_execution, h]

lemma log_error_ref (cfg : ObservabilityConfig) (env : GenEnv) (e : ExceptionInfo)
    (i : Option Interaction) (cn : Option String)
    (ctx : Option (List (String × String))) (ok : Bool) (st : TrackerState)
    (db : DB) :
    (log_error cfg env e i cn ctx ok st db).1 = (generate_error_reference cfg env).1 := by
  rw [log_error]
  split <;> rfl

lemma log_error_off (cfg : ObservabilityConfig) (env : GenEnv) (e : ExceptionInfo)
    (i : Option Interaction) (cn : Option String)
    (ctx : Option (List (String × String))) (ok : Bool) (st : TrackerState)
    (db : DB) (h : cfg.track_errors = false) :
    log_error cfg env e i cn ctx ok st db =
      ((generate_error_reference cfg env).1, st, db) := by
  simp [log_error, h]

lemma log_error_on (cfg : ObservabilityConfig) (env : GenEnv) (e : ExceptionInfo)
    (i : Option Interaction) (cn : Option String)
    (ctx : Option (List (String × String))) (ok : Bool) (st : TrackerState)
    (db : DB) (h : cfg.track_errors = true) :
    log_error cfg env e i cn ctx ok st db =
      ((generate_error_reference cfg env).1,
       { st with error_counts := bump st.error_counts e.type_name },
       if ok then
         { db with error_logs := db.error_logs ++
             [buildErrorLog cfg (generate_error_reference cfg env).1 e i cn ctx] }
       else db) := by
  simp [log_error, h]

/-- The cumulative counters of one state are dominated by those of a later
one (totals and every per-key count). -/
def stateLE (s1 s2 : TrackerState) : Prop :=
  sumCounts s1.command_counts ≤ sumCounts s2.command_counts ∧
  sumCounts s1.error_counts ≤ sumCounts s2.error_counts ∧
  (∀ k, getCount s1.command_counts k ≤ getCount s2.command_counts k) ∧
  (∀ k, getCount s1.error_counts k ≤ getCount s2.error_counts k)

lemma stateLE_refl (s : TrackerState) : stateLE s s :=
  ⟨le_refl _, le_refl _, fun _ => le_refl _, fun _ => le_refl _⟩

lemma stateLE_trans {a b c : TrackerState} (h1 : stateLE a b) (h2 : stateLE b c) :
    stateLE a c :=
  ⟨h1.1.trans h2.1, h1.2.1.trans h2.2.1,
   fun k => (h1.2.2.1 k).trans (h2.2.2.1 k),
   fun k => (h1.2.2.2 k).trans (h2.2.2.2 k)⟩

lemma stateLE_log_command (cfg : ObservabilityConfig) (cmd : CommandInfo)
    (inter : Interaction) (t : ℚ) (s : Bool) (ref : Option (List Char))
    (args : Option (List (String × String))) (ok : Bool) (st : TrackerState)
    (db : DB) :
    stateLE st (log_command_execution cfg cmd inter t s ref args ok st db).1 := by
  by_cases h : cfg.track_command_execution = true
  · rw [log_command_execution_on cfg cmd inter t s ref args ok st db h]
    refine ⟨?_, le_refl _, fun k => getCount_bump_le _ _ _, fun k => le_refl _⟩
    rw [sumCounts_bump]
    omega
  · rw [log_command_execution_off cfg cmd inter t s ref args ok st db
      (by revert h; cases cfg.track_command_execution <;> simp)]
    exact stateLE_refl st

lemma stateLE_log_error (cfg : ObservabilityConfig) (env : GenEnv)
    (e : ExceptionInfo) (i : Option Interaction) (cn : Option String)
    (ctx : Option (List (String × String))) (ok : Bool) (st : TrackerState)
    (db : DB) :
    stateLE st (log_error cfg env e i cn ctx ok st db).2.1 := by
  by_cases h : cfg.track_errors = true
  · rw [log_error_on cfg env e i cn ctx ok st db h]
    refine ⟨le_refl _, ?_, fun k => le_refl _, fun k => getCount_bump_le _ _ _⟩
    rw [sumCounts_bump]
    omega
  · rw [log_error_off cfg env e i cn ctx ok st db
      (by revert h; cases cfg.track_errors <;> simp)]
    exact stateLE_refl st

lemma cleanup_memory_counts (st : TrackerState) :
    (cleanup_memory st).command_counts = st.command_counts := rfl

lemma cleanup_memory_errors (st : TrackerState) :
    (cleanup_memory st).error_counts = st.error_counts := rfl

lemma stateLE_cleanup (st : TrackerState) : stateLE st (cleanup_memory st) :=
  ⟨le_refl _, le_refl _, fun _ => le_refl _, fun _ => le_refl _⟩

lemma stateLE_snapshot (g u : Int) (up : ℚ) (mem : Option ℚ) (ok : Bool)
    (st : TrackerState) (db : DB) :
    stateLE st (create_metric_snapshot g u up mem ok st db).1 := by
  rw [create_metric_snapshot]
  split
  · exact stateLE_cleanup st
  · exact stateLE_refl st

lemma stateLE_tracked_call (cfg : ObservabilityConfig) (env : CallEnv)
    (inter : Interaction) (outcome : HandlerOutcome) (st : TrackerState)
    (db : DB) :
    stateLE st (tracked_call cfg env inter outcome st db).1 := by
  simp only [tracked_call]
  cases outcome with
  | ok =>
    cases hc : inter.command with
    | none => exact stateLE_refl st
    | some cmd => exact stateLE_log_command _ _ _ _ _ _ _ _ _ _
  | raises e =>
    cases hc : inter.command with
    | none => exact stateLE_log_error _ _ _ _ _ _ _ _ _
    | some cmd =>
      exact stateLE_trans (stateLE_log_error cfg env.gen e (some inter) _ none
        env.errorInsertOk st db) (stateLE_log_command _ _ _ _ _ _ _ _ _ _)

lemma stateLE_applyOp (cfg : ObservabilityConfig) (op : TrackerOp)
    (s : TrackerState × DB) (h : op ≠ TrackerOp.reset) :
    stateLE s.1 (applyOp cfg op s).1 := by
  obtain ⟨st, db⟩ := s
  cases op with
  | logCommand cmd inter t su ref args ok =>
    exact stateLE_log_command cfg cmd inter t su ref args ok st db
  | logError env e i cn ctx ok => exact stateLE_log_error cfg env e i cn ctx ok st db
  | trackedCall env inter outcome => exact stateLE_tracked_call cfg env inter outcome st db
  | snapshot g u up mem ok => exact stateLE_snapshot g u up mem ok st db
  | cleanup => exact stateLE_cleanup st
  | reset => exact absurd rfl h

lemma stateLE_applyOps (cfg : ObservabilityConfig) (ops : List TrackerOp) :
    ∀ s : TrackerState × DB, TrackerOp.reset ∉ ops →
      stateLE s.1 (applyOps cfg ops s).1 := by
  induction ops with
  | nil =>
    intro s _
    exact stateLE_refl s.1
  | cons op rest ih =>
    intro s h
    have h1 : op ≠ TrackerOp.reset := by
      intro he
      subst he
      exact h (List.mem_cons_self _ _)
    have h2 : TrackerOp.reset ∉ rest := fun hm => h (List.mem_cons_of_mem op hm)
    exact stateLE_trans (stateLE_applyOp cfg op s h1)
      (ih (applyOp cfg op s) h2)

lemma countersLE_of_stateLE {st st' : TrackerState} (g1 u1 : Int) (up1 : ℚ)
    (m1 : Option ℚ) (g2 u2 : Int) (up2 : ℚ) (m2 : Option ℚ)
    (h : stateLE st st') :
    countersLE (build_snapshot st g1 u1 up1 m1) (build_snapshot st' g2 u2 up2 m2) := h

/-! ## Concrete demo values used by scenario theorems and witnesses -/

/-- A slash command named `ping`. -/
def demoCommand : CommandInfo := ⟨"ping", false, false⟩

/-- A command with a caller-chosen name. -/
def namedCommand (s : String) : CommandInfo := ⟨s, false, false⟩

/-- A direct-message-like interaction invoking `ping` with one argument. -/
def demoInter : Interaction :=
  ⟨⟨7, "alice"⟩, none, none, some demoCommand, [("amount", "5")]⟩

/-- A generation environment whose probes never find a collision. -/
def demoGenEnv : GenEnv := ⟨fun _ _ => 0, fun _ => ProbeResult.notFound, 1700000000⟩

/-- A generation environment in which every storage call raises. -/
def outageGenEnv : GenEnv := ⟨fun _ _ => 0, fun _ => ProbeResult.dbError, 1700000000⟩

/-- A `ZeroDivisionError`-style exception value. -/
def demoError : ExceptionInfo := ⟨"ZeroDivisionError", "division by zero", "Traceback..."⟩

/-- An environment that reports a collision twice, then no collision. -/
def twiceCollideEnv : GenEnv :=
  ⟨fun _ _ => 0, fun i => if i < 2 then ProbeResult.found else ProbeResult.notFound,
   1700000000⟩

lemma generate_wellFormed (cfg : ObservabilityConfig) (env : GenEnv) :
    wellFormedRef cfg.error_reference_length (generate_error_reference cfg env).1 = true := by
  have hclean : ∀ i : Nat, wellFormedRef cfg.error_reference_length
      (errTag ++ randomChoices cfg.error_reference_length (env.picks i)) = true :=
    fun i => wellFormedRef_of_clean (matchesCleanRef_of_choices _ _)
  simp only [generate_error_reference]
  cases h0 : env.probe 0 with
  | notFound => exact hclean 0
  | dbError => exact hclean 0
  | found =>
    cases h1 : env.probe 1 with
    | notFound => exact hclean 1
    | dbError => exact hclean 1
    | found =>
      cases h2 : env.probe 2 with
      | notFound => exact hclean 2
      | dbError => exact hclean 2
      | found => exact wellFormedRef_of_suffixed _ _ _

/-! ## The claims -/

/-- C2: for every exception input and every behaviour of the storage layer
(every probe answer, including every probe raising, and the `ErrorLog`
insert raising — `ok = false`), `log_error` always returns a reference, and
that reference is well-formed (`ERR-` followed by `[A-Z0-9]` characters, at
least the configured length and at most three more). Totality of the
embedding reflects that every exception path of the source is caught, so
the call never raises. -/
theorem C2_log_error_always_returns_wellformed_ref (cfg : ObservabilityConfig)
    (env : GenEnv) (e : ExceptionInfo) (i : Option Interaction)
    (cn : Option String) (ctx : Option (List (String × String))) (ok : Bool)
    (st : TrackerState) (db : DB) :
    wellFormedRef cfg.error_reference_length
      (log_error cfg env e i cn ctx ok st db).1 = true := by
  rw [log_error_ref]
  exact generate_wellFormed cfg env

/-- C3: `generate_error_reference` always returns `ERR-` plus exactly `N`
uppercase-alphanumeric characters, except after three collisions, where a
3-digit timestamp suffix (timestamps of at least 100 have three suffix
digits) is appended to a fresh draw; the probe runs at most 3 times and the
function is total (never fails); and when the probe reports a collision
twice and then no collision, the result is a clean reference obtained with
exactly 3 probe calls. -/
theorem C3_generate_error_reference_contract (cfg : ObservabilityConfig)
    (env : GenEnv) (hts : 100 ≤ env.ts) :
    (matchesCleanRef cfg.error_reference_length
        (generate_error_reference cfg env).1 = true ∨
      ((generate_error_reference cfg env).1 =
          errTag ++ randomChoices cfg.error_reference_length (env.picks 3)
            ++ tsSuffix env.ts ∧
        (tsSuffix env.ts).length = 3 ∧
        (tsSuffix env.ts).all isDigitChar = true ∧
        env.probe 0 = ProbeResult.found ∧ env.probe 1 = ProbeResult.found ∧
        env.probe 2 = ProbeResult.found)) ∧
    (generate_error_reference cfg env).2 ≤ 3 ∧
    (env.probe 0 = ProbeResult.found → env.probe 1 = ProbeResult.found →
      env.probe 2 = ProbeResult.notFound →
      matchesCleanRef cfg.error_reference_length
        (generate_error_reference cfg env).1 = true ∧
      (generate_error_reference cfg env).2 = 3) := by
  simp only [generate_error_reference]
  cases h0 : env.probe 0 with
  | notFound =>
    exact ⟨Or.inl (matchesCleanRef_of_choices _ _), (by norm_num : (1:Nat) ≤ 3),
      fun ha _ _ => absurd ha (by simp)⟩
  | dbError =>
    exact ⟨Or.inl (matchesCleanRef_of_choices _ _), (by norm_num : (1:Nat) ≤ 3),
      fun ha _ _ => absurd ha (by simp)⟩
  | found =>
    cases h1 : env.probe 1 with
    | notFound =>
      exact ⟨Or.inl (matchesCleanRef_of_choices _ _), (by norm_num : (2:Nat) ≤ 3),
        fun _ hb _ => absurd hb (by simp)⟩
    | dbError =>
      exact ⟨Or.inl (matchesCleanRef_of_choices _ _), (by norm_num : (2:Nat) ≤ 3),
        fun _ hb _ => absurd hb (by simp)⟩
    | found =>
      cases h2 : env.probe 2 with
      | notFound =>
        exact ⟨Or.inl (matchesCleanRef_of_choices _ _), le_refl 3,
          fun _ _ _ => ⟨matchesCleanRef_of_choices _ _, rfl⟩⟩
      | dbError =>
        exact ⟨Or.inl (matchesCleanRef_of_choices _ _), le_refl 3,
          fun _ _ hc => absurd hc (by simp)⟩
      | found =>
        exact ⟨Or.inr ⟨rfl, tsSuffix_length_eq env.ts hts,
            tsSuffix_all_digit env.ts, rfl, rfl, rfl⟩, le_refl 3,
          fun _ _ hc => absurd hc (by simp)⟩

/-- Witness for C3: with `error_reference_length = 6` and a probe that
collides twice then succeeds, the result is a clean `ERR-XXXXXX` and
exactly 3 probe calls were made. -/
theorem C3_witness :
    100 ≤ twiceCollideEnv.ts ∧
    matchesCleanRef 6 (generate_error_reference defaultObservabilityConfig twiceCollideEnv).1 = true ∧
    (generate_error_reference defaultObservabilityConfig twiceCollideEnv).2 = 3 := by
  have h := C3_generate_error_reference_contract defaultObservabilityConfig
    twiceCollideEnv (by decide)
  have h3 := h.2.2 (by decide) (by decide) (by decide)
  exact ⟨by decide, h3.1, h3.2⟩

/-- Equation for the timing-map field of `cleanup_memory`. -/
lemma cleanup_memory_timings (st : TrackerState) :
    (cleanup_memory st).command_timings =
      st.command_timings.map (fun p => (p.1, trimTimings p.2)) := rfl

/-- A state with one over-long duration list. -/
def bigState : TrackerState :=
  ⟨[("a", 150)], [("a", List.replicate 150 (1 : ℚ))], [("ValueError", 2)]⟩

/-- A configuration with command-execution tracking disabled. -/
def cfgNoExec : ObservabilityConfig := { track_command_execution := false }

/-- A configuration with command-timing tracking disabled. -/
def cfgNoTiming : ObservabilityConfig := { track_command_timing := false }

/-- C4 counterexample: with `track_command_execution = false` a call to
`log_command_execution` updates neither in-memory map (the command never
appears in either dict), and with `track_command_timing = false` the
duration is not appended even though the count is bumped — so the claim
"for every call both maps are updated" is false as stated. -/
theorem C4_counterexample :
    lookupKey "ping" ((log_command_execution cfgNoExec demoCommand demoInter
        10 true none none true emptyState emptyDB).1.command_counts) = none ∧
    lookupKey "ping" ((log_command_execution cfgNoExec demoCommand demoInter
        10 true none none true emptyState emptyDB).1.command_timings) = none ∧
    lookupKey "ping" ((log_command_execution cfgNoTiming demoCommand demoInter
        10 true none none true emptyState emptyDB).1.command_timings) = none := by
  refine ⟨rfl, rfl, rfl⟩

/-- C4 amended: for every call to `log_command_execution` made while
`track_command_execution` is enabled, the invocation count of the command
is incremented; the duration is appended to the command's duration list
exactly when `track_command_timing` is also enabled. -/
theorem C4_amended_maps_updated (cfg : ObservabilityConfig) (cmd : CommandInfo)
    (inter : Interaction) (t : ℚ) (s : Bool) (ref : Option (List Char))
    (args : Option (List (String × String))) (ok : Bool) (st : TrackerState)
    (db : DB) (h : cfg.track_command_execution = true) :
    getCount ((log_command_execution cfg cmd inter t s ref args ok st db).1.command_counts)
        cmd.qualified_name = getCount st.command_counts cmd.qualified_name + 1 ∧
    (cfg.track_command_timing = true →
      lookupKey cmd.qualified_name
          ((log_command_execution cfg cmd inter t s ref args ok st db).1.command_timings)
        = some (getTimings st cmd.qualified_name ++ [t])) ∧
    (cfg.track_command_timing = false →
      (log_command_execution cfg cmd inter t s ref args ok st db).1.command_timings
        = st.command_timings) := by
  rw [log_command_execution_on cfg cmd inter t s ref args ok st db h]
  refine ⟨getCount_bump_self _ _, ?_, ?_⟩
  · intro ht
    simp only [ht, if_true]
    rw [lookupKey_pushTiming_self]
    rfl
  · intro ht
    simp [ht]

/-- Witness for C4 (amended): under the default configuration, logging
`ping` on the empty state gives it invocation count 1 and duration list
`[10]`. -/
theorem C4_witness :
    defaultObservabilityConfig.track_command_execution = true ∧
    getCount ((log_command_execution defaultObservabilityConfig demoCommand
        demoInter 10 true none none true emptyState emptyDB).1.command_counts)
      demoCommand.qualified_name
      = getCount emptyState.command_counts demoCommand.qualified_name + 1 ∧
    lookupKey demoCommand.qualified_name
        ((log_command_execution defaultObservabilityConfig demoCommand
          demoInter 10 true none none true emptyState emptyDB).1.command_timings)
      = some (getTimings emptyState demoCommand.qualified_name ++ [10]) := by
  have h := C4_amended_maps_updated defaultObservabilityConfig demoCommand
    demoInter 10 true none none true emptyState emptyDB rfl
  exact ⟨rfl, h.1, h.2.1 rfl⟩

/-- C5: `create_metric_snapshot` runs `cleanup_memory` exactly when the
snapshot insert succeeds; when the insert raises, the exception is
swallowed and all in-memory maps (counts, timing lists, error counts) are
left unchanged, as is the store. -/
theorem C5_cleanup_iff_insert_succeeds (g u : Int) (up : ℚ) (mem : Option ℚ)
    (ok : Bool) (st : TrackerState) (db : DB) :
    (ok = true → create_metric_snapshot g u up mem ok st db =
      (cleanup_memory st,
       { db with metrics := db.metrics ++ [build_snapshot st g u up mem] })) ∧
    (ok = false → create_metric_snapshot g u up mem ok st db = (st, db)) := by
  constructor <;> intro h <;> subst h <;> simp [create_metric_snapshot]

/-- Witness for C5: both branches at a concrete state. -/
theorem C5_witness :
    create_metric_snapshot 0 0 0 none true bigState emptyDB =
      (cleanup_memory bigState,
       { emptyDB with metrics := emptyDB.metrics ++ [build_snapshot bigState 0 0 0 none] }) ∧
    create_metric_snapshot 0 0 0 none false bigState emptyDB = (bigState, emptyDB) :=
  ⟨(C5_cleanup_iff_insert_succeeds 0 0 0 none true bigState emptyDB).1 rfl,
   (C5_cleanup_iff_insert_succeeds 0 0 0 none false bigState emptyDB).2 rfl⟩

/-- The scenario run of C6: commands `a`, `b`, `a` with durations 10, 20,
30 ms, followed by a successful snapshot. -/
def c6_run : TrackerState × DB :=
  applyOps defaultObservabilityConfig
    [TrackerOp.logCommand (namedCommand "a") demoInter 10 true none none true,
     TrackerOp.logCommand (namedCommand "b") demoInter 20 true none none true,
     TrackerOp.logCommand (namedCommand "a") demoInter 30 true none none true,
     TrackerOp.snapshot 0 0 0 none true]
    (emptyState, emptyDB)

/-- C6: from the empty state, after logging `a` (10ms), `b` (20ms), `a`
(30ms), the single snapshot inserted by `create_metric_snapshot` has
`commands_by_name = {a: 2, b: 1}`, `total_commands_executed = 3` and
`average_command_time_ms[a] = 20`. -/
theorem C6_snapshot_scenario :
    c6_run.2.metrics.map MetricSnapshotDoc.commands_by_name = [[("a", 2), ("b", 1)]] ∧
    c6_run.2.metrics.map MetricSnapshotDoc.total_commands_executed = [3] ∧
    c6_run.2.metrics.map (fun s => lookupKey "a" s.average_command_time_ms)
      = [some 20] := by
  refine ⟨by decide, by decide, ?_⟩
  have h1 : c6_run.2.metrics.map (fun s => lookupKey "a" s.average_command_time_ms)
      = [some ((([10] ++ [30] : List ℚ)).sum / ((([10] ++ [30] : List ℚ)).length : ℚ))] := rfl
  rw [h1]
  norm_num

/-- C7: after `cleanup_memory`, every per-command duration list has at most
100 entries; each list is the truncation of the old one (`[-100:]` when it
had more than 100 entries, untouched otherwise); and the invocation-count
and error-count maps are exactly as before. -/
theorem C7_cleanup_truncates_and_preserves_counters (st : TrackerState) :
    (∀ c l, lookupKey c (cleanup_memory st).command_timings = some l →
      l.length ≤ 100) ∧
    (∀ c l, lookupKey c st.command_timings = some l →
      lookupKey c (cleanup_memory st).command_timings = some (trimTimings l)) ∧
    (cleanup_memory st).command_counts = st.command_counts ∧
    (cleanup_memory st).error_counts = st.error_counts := by
  refine ⟨?_, ?_, rfl, rfl⟩
  · intro c l hl
    rw [cleanup_memory_timings, lookupKey_mapSnd] at hl
    rw [Option.map_eq_some'] at hl
    obtain ⟨l0, _, rfl⟩ := hl
    exact trimTimings_length_le l0
  · intro c l hl
    rw [cleanup_memory_timings, lookupKey_mapSnd, hl]
    rfl

/-- Witness for C7: a state with a 150-entry duration list is truncated to
its most recent 100 entries while its counters survive. -/
theorem C7_witness :
    lookupKey "a" (cleanup_memory bigState).command_timings =
      some (trimTimings (List.replicate 150 (1 : ℚ))) ∧
    (trimTimings (List.replicate 150 (1 : ℚ))).length ≤ 100 ∧
    (cleanup_memory bigState).command_counts = bigState.command_counts := by
  have h := C7_cleanup_truncates_and_preserves_counters bigState
  have h2 := h.2.1 "a" (List.replicate 150 (1 : ℚ)) rfl
  exact ⟨h2, h.1 "a" _ h2, h.2.2.1⟩
/-! ## Case equations for `tracked_call` -/

lemma tracked_call_ok_nocmd (cfg : ObservabilityConfig) (env : CallEnv)
    (inter : Interaction) (st : TrackerState) (db : DB)
    (hcmd : inter.command = none) :
    tracked_call cfg env inter HandlerOutcome.ok st db = (st, db) := by
  simp only [tracked_call, hcmd]

lemma tracked_call_ok_cmd (cfg : ObservabilityConfig) (env : CallEnv)
    (inter : Interaction) (cmd : CommandInfo) (st : TrackerState) (db : DB)
    (hcmd : inter.command = some cmd) :
    tracked_call cfg env inter HandlerOutcome.ok st db =
      log_command_execution cfg cmd inter env.execution_time_ms true none
        (if cfg.track_command_args then
          some (inter.namespaceArgs.filter (fun p => !(p.1.startsWith "_")))
         else none)
        env.commandInsertOk st db := by
  simp only [tracked_call, hcmd]

lemma tracked_call_raises_nocmd (cfg : ObservabilityConfig) (env : CallEnv)
    (inter : Interaction) (e : ExceptionInfo) (st : TrackerState) (db : DB)
    (hcmd : inter.command = none) :
    tracked_call cfg env inter (HandlerOutcome.raises e) st db =
      (log_error cfg env.gen e (some inter) none none env.errorInsertOk st db).2 := by
  simp only [tracked_call, hcmd, Option.map_none']

lemma tracked_call_raises_cmd (cfg : ObservabilityConfig) (env : CallEnv)
    (inter : Interaction) (e : ExceptionInfo) (cmd : CommandInfo)
    (st : TrackerState) (db : DB) (hcmd : inter.command = some cmd) :
    tracked_call cfg env inter (HandlerOutcome.raises e) st db =
      log_command_execution cfg cmd inter env.execution_time_ms false
        (some (log_error cfg env.gen e (some inter) (some cmd.qualified_name)
          none env.errorInsertOk st db).1)
        (if cfg.track_command_args then
          some (inter.namespaceArgs.filter (fun p => !(p.1.startsWith "_")))
         else none)
        env.commandInsertOk
        (log_error cfg env.gen e (some inter) (some cmd.qualified_name)
          none env.errorInsertOk st db).2.1
        (log_error cfg env.gen e (some inter) (some cmd.qualified_name)
          none env.errorInsertOk st db).2.2 := by
  simp only [tracked_call, hcmd, Option.map_some']

/-- One `tracked_call` environment with both inserts succeeding. -/
def demoCallEnv : CallEnv := ⟨demoGenEnv, true, true, 5⟩

/-- C1: when the wrapped handler raises and tracking is enabled with a
healthy store, `tracked_call` appends exactly one `ErrorLog` row and
exactly one `CommandLog` row; that `CommandLog` row has `success = false`
and its `error_reference` equals the `ErrorLog` row's `error_reference`. -/
theorem C1_raising_handler_one_error_one_command_row (cfg : ObservabilityConfig)
    (env : CallEnv) (inter : Interaction) (e : ExceptionInfo) (cmd : CommandInfo)
    (st : TrackerState) (db : DB)
    (hterr : cfg.track_errors = true) (htexec : cfg.track_command_execution = true)
    (hok1 : env.errorInsertOk = true) (hok2 : env.commandInsertOk = true)
    (hcmd : inter.command = some cmd) :
    ∃ elog clog,
      (tracked_call cfg env inter (HandlerOutcome.raises e) st db).2.error_logs
        = db.error_logs ++ [elog] ∧
      (tracked_call cfg env inter (HandlerOutcome.raises e) st db).2.command_logs
        = db.command_logs ++ [clog] ∧
      clog.success = false ∧
      clog.error_reference = some elog.error_reference := by
  rw [tracked_call_raises_cmd cfg env inter e cmd st db hcmd,
    log_error_on cfg env.gen e (some inter) (some cmd.qualified_name) none
      env.errorInsertOk st db hterr]
  rw [log_command_execution_on cfg cmd inter env.execution_time_ms false _ _
    env.commandInsertOk _ _ htexec]
  simp only [hok1, hok2, if_true]
  exact ⟨_, _, rfl, rfl, rfl, rfl⟩

/-- Witness for C1 at a concrete raising invocation. -/
theorem C1_witness :
    defaultObservabilityConfig.track_errors = true ∧
    demoInter.command = some demoCommand ∧
    (∃ elog clog,
      (tracked_call defaultObservabilityConfig demoCallEnv demoInter
          (HandlerOutcome.raises demoError) emptyState emptyDB).2.error_logs
        = emptyDB.error_logs ++ [elog] ∧
      (tracked_call defaultObservabilityConfig demoCallEnv demoInter
          (HandlerOutcome.raises demoError) emptyState emptyDB).2.command_logs
        = emptyDB.command_logs ++ [clog] ∧
      clog.success = false ∧
      clog.error_reference = some elog.error_reference) :=
  ⟨rfl, rfl, C1_raising_handler_one_error_one_command_row defaultObservabilityConfig
    demoCallEnv demoInter demoError demoCommand emptyState emptyDB
    rfl rfl rfl rfl rfl⟩

/-! ## C8: disabled argument tracking -/

lemma log_error_command_logs (cfg : ObservabilityConfig) (env : GenEnv)
    (e : ExceptionInfo) (i : Option Interaction) (cn : Option String)
    (ctx : Option (List (String × String))) (ok : Bool) (st : TrackerState)
    (db : DB) :
    (log_error cfg env e i cn ctx ok st db).2.2.command_logs = db.command_logs := by
  by_cases h : cfg.track_errors = true
  · rw [log_error_on cfg env e i cn ctx ok st db h]
    by_cases hok : ok = true
    · simp [hok]
    · simp at hok
      simp [hok]
  · rw [log_error_off cfg env e i cn ctx ok st db (by revert h; cases cfg.track_errors <;> simp)]

lemma log_command_args_none (cfg : ObservabilityConfig) (cmd : CommandInfo)
    (inter : Interaction) (t : ℚ) (s : Bool) (ref : Option (List Char))
    (args : Option (List (String × String))) (ok : Bool) (st : TrackerState)
    (db : DB) (hargs : cfg.track_command_args = false) :
    ∀ d ∈ (log_command_execution cfg cmd inter t s ref args ok st db).2.command_logs,
      d ∈ db.command_logs ∨ d.arguments = none := by
  by_cases h : cfg.track_command_execution = true
  · rw [log_command_execution_on cfg cmd inter t s ref args ok st db h]
    intro d hd
    by_cases hok : ok = true
    · simp only [hok, if_true] at hd
      simp only [List.mem_append, List.mem_singleton] at hd
      rcases hd with hd | hd
      · exact Or.inl hd
      · subst hd
        right
        simp [buildCommandLog, hargs]
    · simp at hok
      simp only [hok] at hd
      simp at hd
      exact Or.inl hd
  · rw [log_command_execution_off cfg cmd inter t s ref args ok st db
      (by revert h; cases cfg.track_command_execution <;> simp)]
    intro d hd
    exact Or.inl hd

/-- C8: with `track_command_args = false`, every `CommandLog` row that a
`tracked_call` invocation persists has `arguments = none`, whatever
argument values the user supplied in `interaction.namespace`: every row in
the store afterwards is either an old row or one with null arguments. -/
theorem C8_args_never_persisted_when_disabled (cfg : ObservabilityConfig)
    (env : CallEnv) (inter : Interaction) (outcome : HandlerOutcome)
    (st : TrackerState) (db : DB) (hargs : cfg.track_command_args = false) :
    ∀ d ∈ (tracked_call cfg env inter outcome st db).2.command_logs,
      d ∈ db.command_logs ∨ d.arguments = none := by
  cases outcome with
  | ok =>
    cases hc : inter.command with
    | none =>
      rw [tracked_call_ok_nocmd cfg env inter st db hc]
      intro d hd
      exact Or.inl hd
    | some cmd =>
      rw [tracked_call_ok_cmd cfg env inter cmd st db hc]
      exact log_command_args_none cfg cmd inter env.execution_time_ms true none _
        env.commandInsertOk st db hargs
  | raises e =>
    cases hc : inter.command with
    | none =>
      rw [tracked_call_raises_nocmd cfg env inter e st db hc]
      intro d hd
      rw [log_error_command_logs] at hd
      exact Or.inl hd
    | some cmd =>
      rw [tracked_call_raises_cmd cfg env inter e cmd st db hc]
      intro d hd
      have := log_command_args_none cfg cmd inter env.execution_time_ms false
        (some (log_error cfg env.gen e (some inter) (some cmd.qualified_name)
          none env.errorInsertOk st db).1)
        (if cfg.track_command_args then
          some (inter.namespaceArgs.filter (fun p => !(p.1.startsWith "_")))
         else none)
        env.commandInsertOk
        (log_error cfg env.gen e (some inter) (some cmd.qualified_name)
          none env.errorInsertOk st db).2.1
        (log_error cfg env.gen e (some inter) (some cmd.qualified_name)
          none env.errorInsertOk st db).2.2 hargs d hd
      rcases this with hmem | hnone
      · rw [log_error_command_logs] at hmem
        exact Or.inl hmem
      · exact Or.inr hnone

/-- A configuration with argument tracking disabled. -/
def cfgNoArgs : ObservabilityConfig := { track_command_args := false }

/-- The document persisted in the C8 witness scenario. -/
def c8_doc : CommandLogDoc :=
  buildCommandLog cfgNoArgs demoCommand demoInter 5 true none none

/-- Witness for C8: invoking `ping` with argument `amount = 5` under
disabled argument tracking persists one row, and that row has null
arguments. -/
theorem C8_witness :
    cfgNoArgs.track_command_args = false ∧
    c8_doc ∈ (tracked_call cfgNoArgs demoCallEnv demoInter HandlerOutcome.ok
      emptyState emptyDB).2.command_logs ∧
    (c8_doc ∈ emptyDB.command_logs ∨ c8_doc.arguments = none) := by
  refine ⟨rfl, by decide, ?_⟩
  exact C8_args_never_persisted_when_disabled cfgNoArgs demoCallEnv demoInter
    HandlerOutcome.ok emptyState emptyDB rfl c8_doc (by decide)

/-! ## C9: snapshot-to-snapshot counter monotonicity -/

/-- The state after one tracked `ping` execution. -/
def c9_state : TrackerState :=
  (log_command_execution defaultObservabilityConfig demoCommand demoInter 10
    true none none true emptyState emptyDB).1

/-- C9 counterexample: `reset_metrics` is a tracker operation, and running
it between two snapshots drops `total_commands_executed` from 1 to 0, so
the counters are not monotonically non-decreasing under *every* sequence
of tracker operations between snapshots. -/
theorem C9_counterexample :
    ¬ countersLE (build_snapshot c9_state 0 0 0 none)
      (build_snapshot
        (applyOps defaultObservabilityConfig [TrackerOp.reset] (c9_state, emptyDB)).1
        0 0 0 none) := by
  intro h
  exact absurd h.1 (by decide)

/-- C9 amended: within a single process lifetime, the cumulative counter
fields of successive snapshots (`total_commands_executed`, `total_errors`,
and each entry of `commands_by_name` and `errors_by_type`) are
monotonically non-decreasing under every sequence of tracker operations
between the snapshots that does not include `reset_metrics`. -/
theorem C9_counters_monotone_without_reset (cfg : ObservabilityConfig)
    (ops : List TrackerOp) (st : TrackerState) (db : DB)
    (g1 u1 : Int) (up1 : ℚ) (m1 : Option ℚ)
    (g2 u2 : Int) (up2 : ℚ) (m2 : Option ℚ)
    (hnr : TrackerOp.reset ∉ ops) :
    countersLE (build_snapshot st g1 u1 up1 m1)
      (build_snapshot (applyOps cfg ops (st, db)).1 g2 u2 up2 m2) :=
  countersLE_of_stateLE g1 u1 up1 m1 g2 u2 up2 m2
    (stateLE_applyOps cfg ops (st, db) hnr)

/-- Witness for C9 (amended): a reset-free sequence (one error logged, a
cleanup, one snapshot) between two snapshots keeps the counters
non-decreasing. -/
theorem C9_witness :
    (TrackerOp.reset ∉
      [TrackerOp.logError demoGenEnv demoError none none none true,
       TrackerOp.cleanup,
       TrackerOp.snapshot 0 0 0 none true]) ∧
    countersLE (build_snapshot c9_state 0 0 0 none)
      (build_snapshot
        (applyOps defaultObservabilityConfig
          [TrackerOp.logError demoGenEnv demoError none none none true,
           TrackerOp.cleanup,
           TrackerOp.snapshot 0 0 0 none true]
          (c9_state, emptyDB)).1
        0 0 0 none) :=
  ⟨by simp, C9_counters_monotone_without_reset defaultObservabilityConfig
    [TrackerOp.logError demoGenEnv demoError none none none true,
     TrackerOp.cleanup,
     TrackerOp.snapshot 0 0 0 none true]
    c9_state emptyDB 0 0 0 none 0 0 0 none (by simp)⟩

/-! ## C10: averages are computed only over non-empty duration lists -/

lemma averageTimings_mem_keys {m : List (String × List ℚ)} {c : String} {v : ℚ}
    (h : lookupKey c (averageTimings m) = some v) : c ∈ m.map Prod.fst := by
  induction m with
  | nil => simp [averageTimings, lookupKey] at h
  | cons p rest ih =>
    obtain ⟨k, l⟩ := p
    by_cases hl : l = []
    · subst hl
      simp only [averageTimings, if_pos rfl] at h
      simp only [List.map_cons, List.mem_cons]
      exact Or.inr (ih h)
    · simp only [averageTimings, if_neg hl] at h
      by_cases hck : c = k
      · subst hck
        simp [List.map_cons]
      · simp only [lookupKey, if_neg hck] at h
        simp only [List.map_cons, List.mem_cons]
        exact Or.inr (ih h)

lemma averageTimings_lookup_some {m : List (String × List ℚ)}
    (hnd : (m.map Prod.fst).Nodup) {c : String} {v : ℚ}
    (h : lookupKey c (averageTimings m) = some v) :
    ∃ l, lookupKey c m = some l ∧ l ≠ [] ∧ v = l.sum / (l.length : ℚ) := by
  induction m with
  | nil => simp [averageTimings, lookupKey] at h
  | cons p rest ih =>
    obtain ⟨k, l⟩ := p
    simp only [List.map_cons, List.nodup_cons] at hnd
    obtain ⟨hk, hrest⟩ := hnd
    by_cases hl : l = []
    · subst hl
      simp only [averageTimings, if_pos rfl] at h
      have hmem := averageTimings_mem_keys h
      by_cases hck : c = k
      · subst hck
        exact absurd hmem hk
      · obtain ⟨l0, hl0, hne, hv⟩ := ih hrest h
        exact ⟨l0, by simp [lookupKey, hck, hl0], hne, hv⟩
    · simp only [averageTimings, if_neg hl] at h
      by_cases hck : c = k
      · subst hck
        simp [lookupKey] at h
        exact ⟨l, by simp [lookupKey], hl, h.symm⟩
      · simp only [lookupKey, if_neg hck] at h
        obtain ⟨l0, hl0, hne, hv⟩ := ih hrest h
        exact ⟨l0, by simp [lookupKey, hck, hl0], hne, hv⟩

lemma averageTimings_lookup_empty {m : List (String × List ℚ)}
    (hnd : (m.map Prod.fst).Nodup) {c : String}
    (h : lookupKey c m = some []) :
    lookupKey c (averageTimings m) = none := by
  induction m with
  | nil => simp [averageTimings, lookupKey]
  | cons p rest ih =>
    obtain ⟨k, l⟩ := p
    simp only [List.map_cons, List.nodup_cons] at hnd
    obtain ⟨hk, hrest⟩ := hnd
    by_cases hck : c = k
    · subst hck
      simp [lookupKey] at h
      subst h
      have havg : averageTimings ((c, ([] : List ℚ)) :: rest) = averageTimings rest := by
        simp [averageTimings]
      rw [havg]
      cases h2 : lookupKey c (averageTimings rest) with
      | none => rfl
      | some v => exact absurd (averageTimings_mem_keys h2) hk
    · simp only [lookupKey, if_neg hck] at h
      by_cases hl : l = []
      · subst hl
        simp only [averageTimings, if_pos rfl]
        exact ih hrest h
      · simp only [averageTimings, if_neg hl, lookupKey, if_neg hck]
        exact ih hrest h

/-- C10: in the snapshot computation, an average is recorded only for
commands whose duration list is non-empty — so the divisor is never zero —
and a command whose duration list is empty is absent from
`average_command_time_ms` rather than mapped to zero or failing. (The
key-uniqueness hypothesis is the Python dict invariant.) -/
theorem C10_average_skips_empty_lists (st : TrackerState)
    (hnd : (st.command_timings.map Prod.fst).Nodup) :
    (∀ c v, lookupKey c (build_snapshot st 0 0 0 none).average_command_time_ms = some v →
      ∃ l, lookupKey c st.command_timings = some l ∧ l ≠ [] ∧
        (l.length : ℚ) ≠ 0 ∧ v = l.sum / (l.length : ℚ)) ∧
    (∀ c, lookupKey c st.command_timings = some [] →
      lookupKey c (build_snapshot st 0 0 0 none).average_command_time_ms = none) := by
  constructor
  · intro c v h
    obtain ⟨l, hl, hne, hv⟩ := averageTimings_lookup_some hnd h
    refine ⟨l, hl, hne, ?_, hv⟩
    have : l.length ≠ 0 := by
      intro h0
      exact hne (List.length_eq_zero.mp h0)
    exact_mod_cast this
  · intro c h
    exact averageTimings_lookup_empty hnd h

/-- A timing map with one non-empty and one empty duration list. -/
def c10_state : TrackerState := ⟨[], [("a", [10, 30]), ("b", [])], []⟩

/-- Witness for C10: `b` has an empty duration list and is absent from the
snapshot's average map. -/
theorem C10_witness :
    (c10_state.command_timings.map Prod.fst).Nodup ∧
    lookupKey "b" (build_snapshot c10_state 0 0 0 none).average_command_time_ms
      = none := by
  have h := C10_average_skips_empty_lists c10_state (by decide)
  exact ⟨by decide, h.2 "b" rfl⟩

end RickBot
